import Mathlib

/-!
Verification of the temperature-responsive fast-charger firmware
(`TemperatureFastCharger.ino`, NodeMCU ESP8266).

Shallow embedding conventions:
* The DHT11 float readings are modelled as `Option ℚ`: `none` stands for NaN
  (a failed sample), `some v` for a finite reading.  All threshold constants
  and sample values occurring in the firmware are exactly representable, so
  the order structure of the comparisons is preserved.
* The free-standing global variables (`temperatureC`, `humidityPerc`,
  `chargingMode`, `fanOn`) together with the two relay output pins are
  collected into one record `SysState`; every helper of the sketch becomes a
  state-passing function.
* `millis()` is the 32-bit wrapping counter of the ESP8266; true (unwrapped)
  times are `Nat` and the stored counter value is the true time reduced
  `% 2^32`.  The C expression `now - last` on `unsigned long` is `usub32`.
* Literal braces inside the JSON strings are written with `\x7b` / `\x7d`
  escapes.
-/

/-- Relay / GPIO output level as written by `digitalWrite`. -/
inductive Level where
  | low : Level
  | high : Level
deriving DecidableEq, Repr

/-- `const float FAN_ON_TEMP = 32.0;` -/
def FAN_ON_TEMP : ℚ := 32

/-- `const float SLOW_CHARGE_TEMP = 35.0;` -/
def SLOW_CHARGE_TEMP : ℚ := 35

/-- `const unsigned long SENSOR_INTERVAL_MS = 2000UL;` -/
def SENSOR_INTERVAL_MS : Nat := 2000

/-- `const unsigned long LCD_REFRESH_MS = 1500UL;` -/
def LCD_REFRESH_MS : Nat := 1500

/-- Modulus of the 32-bit `unsigned long` millisecond counter (`millis()`). -/
def M32 : Nat := 4294967296

/-- The global mutable state of the sketch: the four state variables
declared at file scope plus the two relay output pins (`FAST_RELAY_PIN`,
`FAN_RELAY_PIN`) driven by `digitalWrite`. -/
structure SysState where
  temperatureC : Option ℚ
  humidityPerc : Option ℚ
  chargingMode : String
  fanOn : Bool
  fastRelayLevel : Level
  fanRelayLevel : Level
deriving DecidableEq, Repr

/-- The state right after `setup()` ran with no successful initial sensor
read: `temperatureC = NAN`, `humidityPerc = NAN`, `chargingMode = "Unknown"`,
`fanOn = false`, and both relays written `HIGH` (inactive). -/
def initState : SysState :=
  { temperatureC := none
    humidityPerc := none
    chargingMode := "Unknown"
    fanOn := false
    fastRelayLevel := Level.high
    fanRelayLevel := Level.high }

/-- The C guard `!isnan(temp) && temp >= thr` for a possibly-NaN value. -/
def tempAtLeast (temp : Option ℚ) (thr : ℚ) : Bool :=
  match temp with
  | none => false
  | some t => decide (thr ≤ t)

/-- `void updateRelaysAndMode(float temp)`: fan logic first (fan relay +
`fanOn`), then charging-mode logic (fast relay + `chargingMode`); relays
are active LOW. -/
def updateRelaysAndMode (temp : Option ℚ) (s : SysState) : SysState :=
  let s1 :=
    if tempAtLeast temp FAN_ON_TEMP then
      { s with fanRelayLevel := Level.low, fanOn := true }
    else
      { s with fanRelayLevel := Level.high, fanOn := false }
  if tempAtLeast temp SLOW_CHARGE_TEMP then
    { s1 with fastRelayLevel := Level.low, chargingMode := "Slow Charging" }
  else
    { s1 with fastRelayLevel := Level.high, chargingMode := "Fast Charging" }

/-- `void readSensor()`: reads humidity `h` and temperature `t` from the
DHT; if either is NaN it logs and returns early, leaving all state
untouched; otherwise it stores both readings and calls
`updateRelaysAndMode(temperatureC)`. -/
def readSensor (h t : Option ℚ) (s : SysState) : SysState :=
  match h, t with
  | some hv, some tv =>
      let s1 := { s with humidityPerc := some hv, temperatureC := some tv }
      updateRelaysAndMode (some tv) s1
  | _, _ => s

/-- Arduino `String(value, 2)` (Print::printFloat with two decimals): a
leading minus for negative values, then round-half-up of the magnitude at
two decimal places. -/
def fmt2 (q : ℚ) : String :=
  let neg : Bool := decide (q < 0)
  let cents : Nat := (200 * q.num.natAbs + q.den) / (2 * q.den)
  (if neg then "-" else "") ++ toString (cents / 100) ++ "." ++
    (if cents % 100 < 10 then "0" else "") ++ toString (cents % 100)

/-- Arduino `String(value, 1)`: one decimal place, round half up on the
magnitude. -/
def fmt1 (q : ℚ) : String :=
  let neg : Bool := decide (q < 0)
  let tenths : Nat := (20 * q.num.natAbs + q.den) / (2 * q.den)
  (if neg then "-" else "") ++ toString (tenths / 10) ++ "." ++
    toString (tenths % 10)

/-- `void handleStatus()`: builds the JSON body exactly as the string
concatenation in the sketch does and serves it with response code 200.
NaN readings render as the `-999.00` sentinel. -/
def handleStatus (s : SysState) : Nat × String :=
  (200,
    "\x7b\"temperature_C\":" ++ fmt2 (s.temperatureC.getD (-999)) ++
    ",\"humidity_percent\":" ++ fmt2 (s.humidityPerc.getD (-999)) ++
    ",\"charging_mode\":\"" ++ s.chargingMode ++
    "\",\"fan_on\":" ++ (if s.fanOn then "true" else "false") ++ "\x7d")

/-- `void handleRoot()`: 302 redirect to `/status` with an empty body. -/
def handleRoot : Nat × String × String :=
  (302, "/status", "")

/-- `void updateLCD()`: line 0 shows the temperature (placeholder
`"Temp = --.- C"` while `temperatureC` is NaN, else one decimal), line 1
shows the charging mode and, when `fanOn`, an `F` marker at column 13. -/
def updateLCD (s : SysState) : String × String :=
  (match s.temperatureC with
    | none => "Temp = --.- C"
    | some v => "Temp = " ++ fmt1 v ++ " C",
   s.chargingMode ++
     (if s.fanOn then
        String.mk (List.replicate (13 - s.chargingMode.length) ' ') ++ "F"
      else ""))

/-- The C expression `now - last` on 32-bit `unsigned long` operands
(both arguments already reduced below `M32`). -/
def usub32 (a b : Nat) : Nat := (a + M32 - b) % M32

/-- The sensor-pipeline gate of `loop()`:
`now - lastSensorMillis >= SENSOR_INTERVAL_MS`, computed on the wrapped
32-bit counter values of the true times `l` (last fire) and `n` (now). -/
def sensorFires (l n : Nat) : Bool :=
  decide (SENSOR_INTERVAL_MS ≤ usub32 (n % M32) (l % M32))

/-- Running `loop()` once per tick over the list of true tick times,
threading `lastSensorMillis`, and collecting the tick times at which the
sensor pipeline fires (`readSensor` runs and `lastSensorMillis = now`). -/
def fireTimes : List Nat → Nat → List Nat
  | [], _ => []
  | n :: ns, l => if sensorFires l n then n :: fireTimes ns n else fireTimes ns l

/-- All true times at which the sensor pipeline runs: the initial
`readSensor()` in `setup()` at time 0 (after which
`lastSensorMillis = millis()`), followed by the fires of `loop()`. -/
def sensorFireTimes (ts : List Nat) : List Nat :=
  0 :: fireTimes ts 0

/-- The states reachable from power-up: `initState`, closed under sensor
polls with arbitrary (possibly NaN) samples.  `handleStatus` and
`updateLCD` only read the state. -/
inductive Reachable : SysState → Prop where
  | start : Reachable initState
  | step (h t : Option ℚ) (s : SysState) : Reachable s → Reachable (readSensor h t s)

/-- States reachable from a given state by sensor polls alone. -/
inductive ReachableFrom : SysState → SysState → Prop where
  | refl (s : SysState) : ReachableFrom s s
  | step (h t : Option ℚ) (a b : SysState) :
      ReachableFrom a b → ReachableFrom a (readSensor h t b)

lemma update_chargingMode (temp : Option ℚ) (s : SysState) :
    (updateRelaysAndMode temp s).chargingMode =
      if tempAtLeast temp SLOW_CHARGE_TEMP then "Slow Charging" else "Fast Charging" := by
  unfold updateRelaysAndMode
  by_cases h1 : tempAtLeast temp FAN_ON_TEMP <;>
    by_cases h2 : tempAtLeast temp SLOW_CHARGE_TEMP <;> simp [h1, h2]

lemma update_fastRelay (temp : Option ℚ) (s : SysState) :
    (updateRelaysAndMode temp s).fastRelayLevel =
      if tempAtLeast temp SLOW_CHARGE_TEMP then Level.low else Level.high := by
  unfold updateRelaysAndMode
  by_cases h1 : tempAtLeast temp FAN_ON_TEMP <;>
    by_cases h2 : tempAtLeast temp SLOW_CHARGE_TEMP <;> simp [h1, h2]

lemma update_fanOn (temp : Option ℚ) (s : SysState) :
    (updateRelaysAndMode temp s).fanOn = tempAtLeast temp FAN_ON_TEMP := by
  unfold updateRelaysAndMode
  by_cases h1 : tempAtLeast temp FAN_ON_TEMP <;>
    by_cases h2 : tempAtLeast temp SLOW_CHARGE_TEMP <;> simp [h1, h2]

lemma update_fanRelay (temp : Option ℚ) (s : SysState) :
    (updateRelaysAndMode temp s).fanRelayLevel =
      if tempAtLeast temp FAN_ON_TEMP then Level.low else Level.high := by
  unfold updateRelaysAndMode
  by_cases h1 : tempAtLeast temp FAN_ON_TEMP <;>
    by_cases h2 : tempAtLeast temp SLOW_CHARGE_TEMP <;> simp [h1, h2]

lemma update_temperatureC (temp : Option ℚ) (s : SysState) :
    (updateRelaysAndMode temp s).temperatureC = s.temperatureC := by
  unfold updateRelaysAndMode
  by_cases h1 : tempAtLeast temp FAN_ON_TEMP <;>
    by_cases h2 : tempAtLeast temp SLOW_CHARGE_TEMP <;> simp [h1, h2]

lemma update_humidityPerc (temp : Option ℚ) (s : SysState) :
    (updateRelaysAndMode temp s).humidityPerc = s.humidityPerc := by
  unfold updateRelaysAndMode
  by_cases h1 : tempAtLeast temp FAN_ON_TEMP <;>
    by_cases h2 : tempAtLeast temp SLOW_CHARGE_TEMP <;> simp [h1, h2]

lemma readSensor_invalid (h t : Option ℚ) (s : SysState) (hfail : h = none ∨ t = none) :
    readSensor h t s = s := by
  rcases hfail with hf | hf
  · subst hf; cases t <;> rfl
  · subst hf; cases h <;> rfl

/-- C1: for every non-NaN temperature `t`, `updateRelaysAndMode` sets the
charging mode to `"Slow Charging"` iff `t >= SLOW_CHARGE_TEMP` (35.0) and to
`"Fast Charging"` iff `t < SLOW_CHARGE_TEMP`, the threshold being inclusive:
`t = SLOW_CHARGE_TEMP` yields `"Slow Charging"`. -/
theorem mode_rule_inclusive (t : ℚ) (s : SysState) :
    ((updateRelaysAndMode (some t) s).chargingMode = "Slow Charging" ↔ SLOW_CHARGE_TEMP ≤ t)
    ∧ ((updateRelaysAndMode (some t) s).chargingMode = "Fast Charging" ↔ t < SLOW_CHARGE_TEMP)
    ∧ (updateRelaysAndMode (some SLOW_CHARGE_TEMP) s).chargingMode = "Slow Charging" := by
  have hss : ("Fast Charging" : String) ≠ "Slow Charging" := by decide
  refine ⟨?_, ?_, ?_⟩
  · rw [update_chargingMode]
    by_cases hc : SLOW_CHARGE_TEMP ≤ t
    · simp [tempAtLeast, hc]
    · simp [tempAtLeast, hc, hss]
  · rw [update_chargingMode]
    by_cases hc : SLOW_CHARGE_TEMP ≤ t
    · simp [tempAtLeast, hc, hss.symm, not_lt.mpr hc]
    · simp [tempAtLeast, hc, not_le.mp hc]
  · rw [update_chargingMode]
    simp [tempAtLeast]

/-- C2: for every non-NaN temperature `t`, `updateRelaysAndMode` sets
`fanOn = true` and drives the fan relay LOW (active, fan on) exactly when
`t >= FAN_ON_TEMP` (32.0), and `fanOn = false` with the fan relay HIGH when
`t < FAN_ON_TEMP`; the threshold is inclusive: `t = FAN_ON_TEMP` turns the
fan on. -/
theorem fan_rule_inclusive (t : ℚ) (s : SysState) :
    ((updateRelaysAndMode (some t) s).fanOn = true ↔ FAN_ON_TEMP ≤ t)
    ∧ ((updateRelaysAndMode (some t) s).fanRelayLevel = Level.low ↔ FAN_ON_TEMP ≤ t)
    ∧ ((updateRelaysAndMode (some t) s).fanOn = false ↔ t < FAN_ON_TEMP)
    ∧ ((updateRelaysAndMode (some t) s).fanRelayLevel = Level.high ↔ t < FAN_ON_TEMP)
    ∧ (updateRelaysAndMode (some FAN_ON_TEMP) s).fanOn = true := by
  by_cases hc : FAN_ON_TEMP ≤ t
  · simp [update_fanOn, update_fanRelay, tempAtLeast, hc, not_lt.mpr hc]
  · simp [update_fanOn, update_fanRelay, tempAtLeast, hc, not_le.mp hc]

/-- C3: when a sensor poll fails (NaN humidity or NaN temperature),
`readSensor` returns before touching anything: every component of the
system state — readings, charging mode, fan flag, and both relay output
levels — keeps its previous value. -/
theorem readSensor_failure_preserves_state (h t : Option ℚ) (s : SysState)
    (hfail : h = none ∨ t = none) :
    readSensor h t s = s
    ∧ (readSensor h t s).temperatureC = s.temperatureC
    ∧ (readSensor h t s).humidityPerc = s.humidityPerc
    ∧ (readSensor h t s).chargingMode = s.chargingMode
    ∧ (readSensor h t s).fanOn = s.fanOn
    ∧ (readSensor h t s).fastRelayLevel = s.fastRelayLevel
    ∧ (readSensor h t s).fanRelayLevel = s.fanRelayLevel := by
  have he := readSensor_invalid h t s hfail
  exact ⟨he, by rw [he], by rw [he], by rw [he], by rw [he], by rw [he], by rw [he]⟩

/-- C3 witness: a failed poll (both samples NaN) on the initial state
leaves it unchanged. -/
theorem readSensor_failure_preserves_state_witness :
    ((none : Option ℚ) = none ∨ (none : Option ℚ) = none)
    ∧ readSensor none none initState = initState :=
  ⟨Or.inl rfl, (readSensor_failure_preserves_state none none initState (Or.inl rfl)).1⟩

/-- C7: in the initial state, before any valid sensor reading, the status
query returns code 200 with both numeric fields at the `-999.00` sentinel,
`charging_mode` equal to `"Unknown"`, and `fan_on` false. -/
theorem initial_status_sentinel :
    handleStatus initState =
      (200, "\x7b\"temperature_C\":-999.00,\"humidity_percent\":-999.00,\"charging_mode\":\"Unknown\",\"fan_on\":false\x7d") := by
  decide

/-- C8: `updateRelaysAndMode` is idempotent: a second run with the same
temperature produces exactly the same state, and in particular writes the
same two relay output levels as the first run. -/
theorem updateRelaysAndMode_idempotent (temp : Option ℚ) (s : SysState) :
    updateRelaysAndMode temp (updateRelaysAndMode temp s) = updateRelaysAndMode temp s
    ∧ (updateRelaysAndMode temp (updateRelaysAndMode temp s)).fanRelayLevel
        = (updateRelaysAndMode temp s).fanRelayLevel
    ∧ (updateRelaysAndMode temp (updateRelaysAndMode temp s)).fastRelayLevel
        = (updateRelaysAndMode temp s).fastRelayLevel
    ∧ (updateRelaysAndMode temp (updateRelaysAndMode temp s)).fanOn
        = (updateRelaysAndMode temp s).fanOn
    ∧ (updateRelaysAndMode temp (updateRelaysAndMode temp s)).chargingMode
        = (updateRelaysAndMode temp s).chargingMode := by
  have he : updateRelaysAndMode temp (updateRelaysAndMode temp s) = updateRelaysAndMode temp s := by
    unfold updateRelaysAndMode
    by_cases h1 : tempAtLeast temp FAN_ON_TEMP <;>
      by_cases h2 : tempAtLeast temp SLOW_CHARGE_TEMP <;> simp [h1, h2]
  exact ⟨he, by rw [he], by rw [he], by rw [he], by rw [he]⟩

/-- C10: `readSensor` invokes `updateRelaysAndMode` only with a non-NaN
temperature — on any path with a NaN sample it is the identity and no call
happens — while the NaN fallback branch of `updateRelaysAndMode` itself
(never reached from `readSensor`) forces `fanOn = false`, both relays HIGH,
and `chargingMode = "Fast Charging"` for every previous state instead of
preserving it. -/
theorem nan_branch_unreachable_from_readSensor (h t : Option ℚ) (s : SysState) :
    readSensor h t s =
      (match h, t with
        | some hv, some tv =>
            updateRelaysAndMode (some tv)
              { s with humidityPerc := some hv, temperatureC := some tv }
        | _, _ => s)
    ∧ (updateRelaysAndMode none s).fanOn = false
    ∧ (updateRelaysAndMode none s).chargingMode = "Fast Charging"
    ∧ (updateRelaysAndMode none s).fanRelayLevel = Level.high
    ∧ (updateRelaysAndMode none s).fastRelayLevel = Level.high := by
  refine ⟨?_, ?_, ?_, ?_, ?_⟩
  · cases h <;> cases t <;> rfl
  · simp [update_fanOn, tempAtLeast]
  · simp [update_chargingMode, tempAtLeast]
  · simp [update_fanRelay, tempAtLeast]
  · simp [update_fastRelay, tempAtLeast]

lemma reachable_chargingMode (s : SysState) (hr : Reachable s) :
    s.chargingMode = "Unknown" ∨ s.chargingMode = "Fast Charging"
      ∨ s.chargingMode = "Slow Charging" := by
  induction hr with
  | start => exact Or.inl rfl
  | step h t s' _ ih =>
    cases h with
    | none => rw [readSensor_invalid none t s' (Or.inl rfl)]; exact ih
    | some hv =>
      cases t with
      | none => rw [readSensor_invalid (some hv) none s' (Or.inr rfl)]; exact ih
      | some tv =>
        have hmode : (readSensor (some hv) (some tv) s').chargingMode =
            if tempAtLeast (some tv) SLOW_CHARGE_TEMP then "Slow Charging" else "Fast Charging" :=
          update_chargingMode (some tv) { s' with humidityPerc := some hv, temperatureC := some tv }
        rw [hmode]
        by_cases hc : tempAtLeast (some tv) SLOW_CHARGE_TEMP = true
        · exact Or.inr (Or.inr (if_pos hc))
        · exact Or.inr (Or.inl (if_neg hc))

/-- C5 counterexample: the initial state is reachable, yet its status body
carries `charging_mode` `"Unknown"`, which is neither `"Fast Charging"` nor
`"Slow Charging"`; so the claim as stated fails on the initial state. -/
theorem status_mode_unknown_at_start :
    Reachable initState
    ∧ initState.chargingMode ≠ "Fast Charging"
    ∧ initState.chargingMode ≠ "Slow Charging"
    ∧ (handleStatus initState).2 =
        "\x7b\"temperature_C\":-999.00,\"humidity_percent\":-999.00,\"charging_mode\":\"Unknown\",\"fan_on\":false\x7d" :=
  ⟨Reachable.start, by decide, by decide, by decide⟩

/-- C5 (amended): for every reachable state the status response has code
200 and a body with exactly the four fields `temperature_C` (two decimals,
`-999.00` sentinel when no valid reading exists), `humidity_percent` (same
policy), `charging_mode` and `fan_on`, where the mode string is
`"Fast Charging"`, `"Slow Charging"`, or — before the first valid reading —
`"Unknown"`; for the state holding reading (36.5 °C, 40.2 %) with mode
`"Slow Charging"` and fan on, the rendered record is exactly the expected
one. -/
theorem status_response_shape (s : SysState) (hr : Reachable s) :
    (handleStatus s).1 = 200
    ∧ (handleStatus s).2 =
        "\x7b\"temperature_C\":" ++ fmt2 (s.temperatureC.getD (-999)) ++
        ",\"humidity_percent\":" ++ fmt2 (s.humidityPerc.getD (-999)) ++
        ",\"charging_mode\":\"" ++ s.chargingMode ++
        "\",\"fan_on\":" ++ (if s.fanOn then "true" else "false") ++ "\x7d"
    ∧ (s.chargingMode = "Unknown" ∨ s.chargingMode = "Fast Charging"
        ∨ s.chargingMode = "Slow Charging")
    ∧ (handleStatus (readSensor (some (mkRat 201 5)) (some (mkRat 73 2)) initState)).2 =
        "\x7b\"temperature_C\":36.50,\"humidity_percent\":40.20,\"charging_mode\":\"Slow Charging\",\"fan_on\":true\x7d" :=
  ⟨rfl, rfl, reachable_chargingMode s hr, by decide⟩

/-- C5 witness: the amended status-shape theorem applied to the concrete
reachable state produced by one valid poll of 40.2 % humidity and
36.5 °C. -/
theorem status_response_shape_witness :
    Reachable (readSensor (some (mkRat 201 5)) (some (mkRat 73 2)) initState)
    ∧ (handleStatus (readSensor (some (mkRat 201 5)) (some (mkRat 73 2)) initState)).1 = 200
    ∧ (handleStatus (readSensor (some (mkRat 201 5)) (some (mkRat 73 2)) initState)).2 =
        "\x7b\"temperature_C\":36.50,\"humidity_percent\":40.20,\"charging_mode\":\"Slow Charging\",\"fan_on\":true\x7d" := by
  have hreach : Reachable (readSensor (some (mkRat 201 5)) (some (mkRat 73 2)) initState) :=
    Reachable.step (some (mkRat 201 5)) (some (mkRat 73 2)) initState Reachable.start
  have h := status_response_shape (readSensor (some (mkRat 201 5)) (some (mkRat 73 2)) initState) hreach
  exact ⟨hreach, h.1, h.2.2.2⟩

/-- C9: validity is monotone.  Once a state holds a valid reading (both
fields non-NaN), every state reachable from it by further polls still holds
valid readings; consequently the LCD renders the actual temperature rather
than the `"Temp = --.- C"` placeholder, and the status body renders both
numeric fields from the retained values instead of taking the `-999.00`
sentinel branch. -/
theorem validity_monotone (s0 s : SysState)
    (h1 : s0.temperatureC.isSome = true) (h2 : s0.humidityPerc.isSome = true)
    (hr : ReachableFrom s0 s) :
    ∃ v w, s.temperatureC = some v ∧ s.humidityPerc = some w
      ∧ (updateLCD s).1 = "Temp = " ++ fmt1 v ++ " C"
      ∧ (handleStatus s).2 =
          "\x7b\"temperature_C\":" ++ fmt2 v ++ ",\"humidity_percent\":" ++ fmt2 w ++
          ",\"charging_mode\":\"" ++ s.chargingMode ++ "\",\"fan_on\":" ++
          (if s.fanOn then "true" else "false") ++ "\x7d" := by
  induction hr with
  | refl s1 =>
    obtain ⟨v, hv⟩ := Option.isSome_iff_exists.mp h1
    obtain ⟨w, hw⟩ := Option.isSome_iff_exists.mp h2
    exact ⟨v, w, hv, hw, by simp [updateLCD, hv], by simp [handleStatus, hv, hw]⟩
  | step hs ts a b _ ih =>
    obtain ⟨v, w, hv, hw, _, _⟩ := ih h1 h2
    cases hs with
    | none =>
      rw [readSensor_invalid none ts b (Or.inl rfl)]
      exact ⟨v, w, hv, hw, by simp [updateLCD, hv], by simp [handleStatus, hv, hw]⟩
    | some hv' =>
      cases ts with
      | none =>
        rw [readSensor_invalid (some hv') none b (Or.inr rfl)]
        exact ⟨v, w, hv, hw, by simp [updateLCD, hv], by simp [handleStatus, hv, hw]⟩
      | some tv' =>
        have htc : (readSensor (some hv') (some tv') b).temperatureC = some tv' := by
          have := update_temperatureC (some tv')
            { b with humidityPerc := some hv', temperatureC := some tv' }
          exact this
        have hhc : (readSensor (some hv') (some tv') b).humidityPerc = some hv' := by
          have := update_humidityPerc (some tv')
            { b with humidityPerc := some hv', temperatureC := some tv' }
          exact this
        exact ⟨tv', hv', htc, hhc, by simp [updateLCD, htc],
          by simp [handleStatus, htc, hhc]⟩

/-- C9 witness: after a valid poll (40.2 %, 36.5 °C), a subsequent failed
poll still leaves valid readings, an actual-value LCD line, and
actual-value status fields. -/
theorem validity_monotone_witness :
    ((readSensor (some (mkRat 201 5)) (some (mkRat 73 2)) initState).temperatureC.isSome = true)
    ∧ ((readSensor (some (mkRat 201 5)) (some (mkRat 73 2)) initState).humidityPerc.isSome = true)
    ∧ (∃ v w,
        (readSensor none none (readSensor (some (mkRat 201 5)) (some (mkRat 73 2)) initState)).temperatureC = some v
        ∧ (readSensor none none (readSensor (some (mkRat 201 5)) (some (mkRat 73 2)) initState)).humidityPerc = some w
        ∧ (updateLCD (readSensor none none (readSensor (some (mkRat 201 5)) (some (mkRat 73 2)) initState))).1
            = "Temp = " ++ fmt1 v ++ " C"
        ∧ (handleStatus (readSensor none none (readSensor (some (mkRat 201 5)) (some (mkRat 73 2)) initState))).2
            = "\x7b\"temperature_C\":" ++ fmt2 v ++ ",\"humidity_percent\":" ++ fmt2 w ++
              ",\"charging_mode\":\"" ++
              (readSensor none none (readSensor (some (mkRat 201 5)) (some (mkRat 73 2)) initState)).chargingMode ++
              "\",\"fan_on\":" ++
              (if (readSensor none none (readSensor (some (mkRat 201 5)) (some (mkRat 73 2)) initState)).fanOn
                then "true" else "false") ++ "\x7d") := by
  refine ⟨by decide, by decide, ?_⟩
  exact validity_monotone (readSensor (some (mkRat 201 5)) (some (mkRat 73 2)) initState)
    (readSensor none none (readSensor (some (mkRat 201 5)) (some (mkRat 73 2)) initState))
    (by decide) (by decide)
    (ReachableFrom.step none none _ _ (ReachableFrom.refl _))

lemma usub32_elapsed (l d : Nat) (hd : d < M32) :
    usub32 ((l + d) % M32) (l % M32) = d := by
  unfold usub32 M32 at *
  omega

/-- C6: for a last-fire time and a current time read off the wrapping
32-bit millisecond counter, the unsigned subtraction `now - lastFired`
recovers the true elapsed time `d` whenever `d` is below the counter
modulus, so the interval test — and the sensor gate of `loop()` built on
it — agrees with the test on the true elapsed time even when the counter
wrapped between the two instants. -/
theorem usub32_gate_correct_across_wrap (l d : Nat) (hd : d < M32) :
    usub32 ((l + d) % M32) (l % M32) = d
    ∧ (SENSOR_INTERVAL_MS ≤ usub32 ((l + d) % M32) (l % M32) ↔ SENSOR_INTERVAL_MS ≤ d)
    ∧ sensorFires l (l + d) = decide (SENSOR_INTERVAL_MS ≤ d) := by
  have he := usub32_elapsed l d hd
  refine ⟨he, by rw [he], ?_⟩
  unfold sensorFires
  rw [he]

/-- C6 witness: with the last fire 1000 ms before the 32-bit counter wraps
and an elapsed time of 2000 ms, the wrapped-counter gate still reports an
elapsed time of exactly 2000 ms and fires. -/
theorem usub32_gate_correct_across_wrap_witness :
    2000 < M32
    ∧ usub32 ((4294966296 + 2000) % M32) (4294966296 % M32) = 2000
    ∧ (SENSOR_INTERVAL_MS ≤ usub32 ((4294966296 + 2000) % M32) (4294966296 % M32)
        ↔ SENSOR_INTERVAL_MS ≤ 2000)
    ∧ sensorFires 4294966296 (4294966296 + 2000) = decide (SENSOR_INTERVAL_MS ≤ 2000) :=
  ⟨by decide, usub32_gate_correct_across_wrap 4294966296 2000 (by decide)⟩

lemma fireTimes_cons_pos (n : Nat) (ns : List Nat) (l : Nat)
    (h : sensorFires l n = true) :
    fireTimes (n :: ns) l = n :: fireTimes ns n := by
  simp [fireTimes, h]

lemma fireTimes_cons_neg (n : Nat) (ns : List Nat) (l : Nat)
    (h : sensorFires l n = false) :
    fireTimes (n :: ns) l = fireTimes ns l := by
  simp [fireTimes, h]

lemma fireTimes_filter (ts : List Nat) : ∀ l : Nat, l % 2000 = 0 →
    List.Pairwise (· < ·) ts →
    (∀ t ∈ ts, l < t) →
    (∀ t ∈ ts, ∀ m, m % 2000 = 0 → l < m → m ≤ t → m ∈ ts) →
    fireTimes ts l = ts.filter (fun t => t % 2000 == 0) := by
  induction ts with
  | nil => intro l _ _ _ _; rfl
  | cons n ns ih =>
    intro l hl hp hgt hmul
    obtain ⟨hn_lt, hp'⟩ := List.pairwise_cons.mp hp
    have hln : l < n := hgt n (List.mem_cons_self n ns)
    by_cases hcase : l + 2000 ≤ n
    · have hmem : l + 2000 ∈ n :: ns :=
        hmul n (List.mem_cons_self n ns) (l + 2000) (by omega) (by omega) hcase
      have hn : n = l + 2000 := by
        rcases List.mem_cons.mp hmem with heq | hmemtl
        · omega
        · have := hn_lt _ hmemtl
          omega
      have hfire : sensorFires l n = true := by
        have h2 : (2000 : Nat) < M32 := by unfold M32; omega
        have he := usub32_elapsed l 2000 h2
        unfold sensorFires SENSOR_INTERVAL_MS
        rw [hn, he]
        simp
      have hmod0 : n % 2000 = 0 := by omega
      rw [fireTimes_cons_pos n ns l hfire, List.filter_cons, if_pos (by simp [hmod0])]
      congr 1
      refine ih n (by omega) hp' hn_lt ?_
      intro t ht m hm hnm hmt
      have hmem2 : m ∈ n :: ns :=
        hmul t (List.mem_cons_of_mem n ht) m hm (by omega) hmt
      rcases List.mem_cons.mp hmem2 with heq | hmemtl
      · omega
      · exact hmemtl
    · have hdm : n - l < M32 := by unfold M32; omega
      have he := usub32_elapsed l (n - l) hdm
      have hn' : l + (n - l) = n := by omega
      rw [hn'] at he
      have hfire : sensorFires l n = false := by
        unfold sensorFires SENSOR_INTERVAL_MS
        rw [he]
        simp
        omega
      have hmod0 : n % 2000 ≠ 0 := by omega
      rw [fireTimes_cons_neg n ns l hfire, List.filter_cons, if_neg (by simp [hmod0])]
      refine ih l hl hp' (fun t ht => lt_trans hln (hn_lt t ht)) ?_
      intro t ht m hm hlm hmt
      have hmem2 : m ∈ n :: ns :=
        hmul t (List.mem_cons_of_mem n ht) m hm hlm hmt
      rcases List.mem_cons.mp hmem2 with heq | hmemtl
      · omega
      · exact hmemtl

/-- C4: with `SENSOR_INTERVAL_MS = 2000` and `lastSensorMillis` starting at
the setup-time fire (time 0), for any strictly increasing sequence of tick
times that includes every positive multiple of 2000 up to its horizon —
with arbitrarily many extra ticks in between, and times far beyond the
32-bit counter wrap — the sensor pipeline runs exactly at the tick times
divisible by 2000: the gate `now - lastSensorMillis >= 2000` (unsigned,
wrapped) fires precisely there and `lastSensorMillis` is set to `now` on
each fire. -/
theorem sensor_pipeline_fires_at_multiples (ts : List Nat)
    (h1 : List.Pairwise (· < ·) ts)
    (h2 : ∀ t ∈ ts, 0 < t)
    (h3 : ∀ t ∈ ts, ∀ k < t / SENSOR_INTERVAL_MS + 1, 0 < k → SENSOR_INTERVAL_MS * k ∈ ts) :
    sensorFireTimes ts = (0 :: ts).filter (fun t => t % SENSOR_INTERVAL_MS == 0) := by
  unfold SENSOR_INTERVAL_MS at h3 ⊢
  unfold sensorFireTimes
  rw [List.filter_cons, if_pos (by simp)]
  congr 1
  refine fireTimes_filter ts 0 (by omega) h1 h2 ?_
  intro t ht m hm h0m hmt
  have hk : 2000 * (m / 2000) ∈ ts := h3 t ht (m / 2000) (by omega) (by omega)
  have hme : 2000 * (m / 2000) = m := by omega
  rwa [hme] at hk

/-- C4 witness: ticks at 500, 2000, 3000 and 4000 ms make the pipeline run
exactly at 0, 2000 and 4000 ms. -/
theorem sensor_pipeline_fires_at_multiples_witness :
    List.Pairwise (· < ·) [500, 2000, 3000, 4000]
    ∧ (∀ t ∈ [500, 2000, 3000, 4000], 0 < t)
    ∧ (∀ t ∈ [500, 2000, 3000, 4000], ∀ k < t / SENSOR_INTERVAL_MS + 1,
        0 < k → SENSOR_INTERVAL_MS * k ∈ [500, 2000, 3000, 4000])
    ∧ sensorFireTimes [500, 2000, 3000, 4000]
        = ([0, 500, 2000, 3000, 4000] : List Nat).filter (fun t => t % SENSOR_INTERVAL_MS == 0)
    ∧ sensorFireTimes [500, 2000, 3000, 4000] = [0, 2000, 4000] :=
  ⟨by decide, by decide, by decide,
    sensor_pipeline_fires_at_multiples [500, 2000, 3000, 4000] (by decide) (by decide) (by decide),
    by decide⟩
